import Mathlib

/-!
Shallow embedding of `src/webrtc-sys/src/frame_cryptor.cpp` (namespace
`livekit`), the C++ side of a cxx FFI binding that wires the native
`webrtc::FrameCryptorTransformer` end-to-end-encryption transformer into RTP
sender/receiver pipelines.

Modelling conventions:
* cxx shared enums (`Algorithm`, the boundary `FrameCryptionState`) are
  structs wrapping an underlying integral value in the generated C++, so they
  are embedded as one-field structures over `Nat`; the `switch` in
  `AlgorithmToFrameCryptorAlgorithm` compares against the named enumerators
  and has a `default:` arm, rendered as an if-chain ending in the default.
* `static_cast` between enum types preserves the underlying integral value,
  so it is embedded as the identity on that value.
* The wrapped native `webrtc::FrameCryptorTransformer` is external to the
  file; only the interface used by the binding is modelled: a record holding
  the constructor arguments and the mutable `enabled` / `key_index` /
  observer-registration state, with its setters and getters acting on that
  record. Because the transformer is shared (the `FrameCryptor` and the
  sender/receiver pipeline hold references to the same object), transformers
  live in a heap (`World`, a list indexed by allocation order) and objects
  hold a heap index, mirroring C++ reference semantics.
* Opaque foreign handles (threads, `rust::Box` observers, the native
  `webrtc::KeyProvider` reference passed to the transformer) are embedded as
  `Nat` tokens: the binding only stores and forwards them.
* The initial `enabled` flag and key index of a freshly allocated native
  transformer are not determined by this file, so the constructor embeddings
  take them as explicit parameters and the theorems quantify over them. A
  freshly constructed transformer has no observer registered (registration
  happens only through the explicit register call of the interface).
-/

namespace webrtc

/-- The native transformer's algorithm enum
`webrtc::FrameCryptorTransformer::Algorithm` (external library; the four
enumerators named by the binding). -/
inductive FrameCryptorTransformer.Algorithm
  | kAesGcm
  | kAesCbc
  | kSm4Gcm
  | kSm4Cbc
deriving DecidableEq, Repr, Inhabited

/-- The native transformer's media-type enum
`webrtc::FrameCryptorTransformer::MediaType` (external library; the two
enumerators named by the binding). -/
inductive FrameCryptorTransformer.MediaType
  | kAudioFrame
  | kVideoFrame
deriving DecidableEq, Repr, Inhabited

/-- `webrtc::FrameCryptionState` (external library enum), embedded by its
underlying integral value, which is all `static_cast` acts on. -/
structure FrameCryptionState where
  val : Nat
deriving DecidableEq, Repr, Inhabited

/-- `webrtc::KeyProviderOptions` (external library options struct): the four
fields the binding fills in. `ratchet_salt` is a byte vector, embedded as a
list of byte values. -/
structure KeyProviderOptions where
  shared_key : Bool
  ratchet_salt : List Nat
  ratchet_window_size : Int
  failure_tolerance : Int
deriving DecidableEq, Repr

/-- `webrtc::DefaultKeyProviderImpl` (external library), as far as the
binding observes it: an object constructed from a `webrtc::KeyProviderOptions`
value. -/
structure DefaultKeyProviderImpl where
  options : KeyProviderOptions
deriving DecidableEq, Repr

/-- The native transformer `webrtc::FrameCryptorTransformer` (external
library), restricted to the interface the binding uses: the five constructor
arguments it is built from, plus the mutable enabled flag, key index and
observer registration that its setters and getters touch. -/
structure FrameCryptorTransformer where
  signaling_thread : Nat
  participant_id : String
  mediaType : FrameCryptorTransformer.MediaType
  algorithm : FrameCryptorTransformer.Algorithm
  key_provider : Nat
  enabled : Bool
  keyIndex : Int
  observerRegistered : Bool
deriving DecidableEq, Repr, Inhabited

end webrtc

namespace livekit

/-- The cxx shared enum `Algorithm` from the Rust bridge
(`webrtc-sys/src/frame_cryptor.rs.h`): a struct wrapping an underlying
integral value, so values outside the named enumerators exist. -/
structure Algorithm where
  val : Nat
deriving DecidableEq, Repr

/-- Enumerator `Algorithm::AesGcm`. -/
def Algorithm.AesGcm : Algorithm := ⟨0⟩

/-- Enumerator `Algorithm::AesCbc`. -/
def Algorithm.AesCbc : Algorithm := ⟨1⟩

/-- Enumerator `Algorithm::Sm4Gcm`. -/
def Algorithm.Sm4Gcm : Algorithm := ⟨2⟩

/-- Enumerator `Algorithm::Sm4Cbc`. -/
def Algorithm.Sm4Cbc : Algorithm := ⟨3⟩

/-- Embeds `livekit::AlgorithmToFrameCryptorAlgorithm`
(frame_cryptor.cpp, lines 31-47). The `switch` is rendered as an if-chain
over the named enumerators; the `Sm4Gcm` and `Sm4Cbc` cases return `kAesGcm`
(their `kSm4Gcm` / `kSm4Cbc` returns are commented out in the source), and
the `default:` arm returns `kAesGcm`. -/
def AlgorithmToFrameCryptorAlgorithm (algorithm : Algorithm) :
    webrtc.FrameCryptorTransformer.Algorithm :=
  if algorithm = Algorithm.AesGcm then
    webrtc.FrameCryptorTransformer.Algorithm.kAesGcm
  else if algorithm = Algorithm.AesCbc then
    webrtc.FrameCryptorTransformer.Algorithm.kAesCbc
  else if algorithm = Algorithm.Sm4Gcm then
    webrtc.FrameCryptorTransformer.Algorithm.kAesGcm
  else if algorithm = Algorithm.Sm4Cbc then
    webrtc.FrameCryptorTransformer.Algorithm.kAesGcm
  else
    webrtc.FrameCryptorTransformer.Algorithm.kAesGcm

/-- The cxx struct `KeyProviderOptions` from the Rust bridge: the
boundary-side options record the binding translates. -/
structure KeyProviderOptions where
  shared_key : Bool
  ratchet_salt : List Nat
  ratchet_window_size : Int
  failure_tolerance : Int
deriving DecidableEq, Repr

/-- `std::copy(src.begin(), src.end(), std::back_inserter(dest))` on an
empty `dest`: pushes the source bytes onto the back of the destination in
order. -/
def copyToBackInserter (src : List Nat) : List Nat :=
  src.foldl (fun dest b => dest ++ [b]) []

/-- `livekit::KeyProvider`: holds the reference-counted
`webrtc::DefaultKeyProviderImpl` built by its constructor. -/
structure KeyProvider where
  impl_ : webrtc.DefaultKeyProviderImpl
deriving DecidableEq, Repr

/-- Embeds the constructor `KeyProvider::KeyProvider` (frame_cryptor.cpp,
lines 49-63): builds a `webrtc::KeyProviderOptions` by copying the flag,
salt bytes, window size and failure tolerance, then constructs the wrapped
`DefaultKeyProviderImpl` from it. -/
def KeyProvider.construct (options : KeyProviderOptions) : KeyProvider :=
  let ratchet_salt := copyToBackInserter options.ratchet_salt
  let rtc_options : webrtc.KeyProviderOptions :=
    { shared_key := options.shared_key
      ratchet_salt := ratchet_salt
      ratchet_window_size := options.ratchet_window_size
      failure_tolerance := options.failure_tolerance }
  { impl_ := { options := rtc_options } }

/-- Heap of live native `webrtc::FrameCryptorTransformer` objects, indexed by
allocation order. The binding and the sender/receiver pipelines share the
transformer by reference, which heap indices mirror. -/
structure World where
  transformers : List webrtc.FrameCryptorTransformer
deriving DecidableEq, Repr

/-- Allocates a fresh transformer (C++ `new webrtc::FrameCryptorTransformer`):
returns its heap index and the grown heap. -/
def World.newFrameCryptorTransformer (w : World)
    (t : webrtc.FrameCryptorTransformer) : Nat × World :=
  (w.transformers.length, ⟨w.transformers ++ [t]⟩)

/-- Dereferences a transformer heap index. -/
def World.getT (w : World) (id : Nat) : webrtc.FrameCryptorTransformer :=
  w.transformers.getD id default

/-- Replaces the transformer at a heap index by the image of the update
function (out-of-range indices leave the heap unchanged). -/
def World.updateT (w : World) (id : Nat)
    (f : webrtc.FrameCryptorTransformer → webrtc.FrameCryptorTransformer) :
    World :=
  ⟨w.transformers.set id (f (w.getT id))⟩

/-- Native `FrameCryptorTransformer::SetEnabled` on the shared object. -/
def World.SetEnabled (w : World) (id : Nat) (enabled : Bool) : World :=
  w.updateT id (fun t => { t with enabled := enabled })

/-- Native `FrameCryptorTransformer::SetKeyIndex` on the shared object. -/
def World.SetKeyIndex (w : World) (id : Nat) (index : Int) : World :=
  w.updateT id (fun t => { t with keyIndex := index })

/-- Native `FrameCryptorTransformer::RegisterFrameCryptorTransformerObserver`
on the shared object. -/
def World.RegisterFrameCryptorTransformerObserver (w : World) (id : Nat) :
    World :=
  w.updateT id (fun t => { t with observerRegistered := true })

/-- Native
`FrameCryptorTransformer::UnRegisterFrameCryptorTransformerObserver` on the
shared object. -/
def World.UnRegisterFrameCryptorTransformerObserver (w : World) (id : Nat) :
    World :=
  w.updateT id (fun t => { t with observerRegistered := false })

/-- `livekit::RtcRuntime`, as far as the binding uses it: its
`signaling_thread()` (an opaque thread handle). -/
structure RtcRuntime where
  signaling_thread : Nat
deriving DecidableEq, Repr

/-- A media track, as far as the binding uses it: its `kind()` string. -/
structure MediaStreamTrack where
  kind : String
deriving DecidableEq, Repr

/-- `webrtc::RtpSenderInterface`, restricted to the interface the binding
uses: its track and the frame transformer installed into its
encoder-to-packetizer pipeline (a heap index; `none` when no transformer is
installed). -/
structure RtpSender where
  track : MediaStreamTrack
  frame_transformer : Option Nat
deriving DecidableEq, Repr

/-- `RtpSenderInterface::SetEncoderToPacketizerFrameTransformer`. -/
def RtpSender.SetEncoderToPacketizerFrameTransformer (s : RtpSender)
    (id : Nat) : RtpSender :=
  { s with frame_transformer := some id }

/-- `webrtc::RtpReceiverInterface`, restricted to the interface the binding
uses: its track and the frame transformer installed into its
depacketizer-to-decoder pipeline. -/
structure RtpReceiver where
  track : MediaStreamTrack
  frame_transformer : Option Nat
deriving DecidableEq, Repr

/-- `RtpReceiverInterface::SetDepacketizerToDecoderFrameTransformer`. -/
def RtpReceiver.SetDepacketizerToDecoderFrameTransformer (r : RtpReceiver)
    (id : Nat) : RtpReceiver :=
  { r with frame_transformer := some id }

/-- The boundary-side cxx shared enum `FrameCryptionState` from the Rust
bridge, embedded by its underlying integral value, which is all
`static_cast` acts on. -/
structure FrameCryptionState where
  val : Nat
deriving DecidableEq, Repr

/-- `static_cast<FrameCryptionState>(state)` in
`NativeFrameCryptorObserver::OnFrameCryptionStateChanged`: a C++ enum cast
preserves the underlying integral value. -/
def staticCastFrameCryptionState (state : webrtc.FrameCryptionState) :
    FrameCryptionState :=
  ⟨state.val⟩

/-- `livekit::NativeFrameCryptorObserver`: wraps the
`rust::Box<RtcFrameCryptorObserverWrapper>` moved into it (an opaque handle
here). The stored back-pointer `fc_` to the owning `FrameCryptor` is never
read by any embedded operation and is omitted. -/
structure NativeFrameCryptorObserver where
  observer_ : Nat
deriving DecidableEq, Repr

/-- One invocation of the wrapped Rust observer's
`on_frame_cryption_state_change`, recording the target observer handle and
the two arguments passed. -/
structure StateChangeCall where
  target : Nat
  participant_id : String
  state : FrameCryptionState
deriving DecidableEq, Repr

/-- Embeds `NativeFrameCryptorObserver::OnFrameCryptionStateChanged`
(frame_cryptor.cpp, lines 136-141): calls the wrapped Rust observer's
`on_frame_cryption_state_change` with the participant id and the
`static_cast` of the state. The emitted calls are returned as a list. -/
def NativeFrameCryptorObserver.OnFrameCryptionStateChanged
    (o : NativeFrameCryptorObserver) (participant_id : String)
    (state : webrtc.FrameCryptionState) : List StateChangeCall :=
  [{ target := o.observer_
     participant_id := participant_id
     state := staticCastFrameCryptionState state }]

/-- `livekit::FrameCryptor`: the members of the class that the embedded
operations read or write. `sender_` / `receiver_` are reference-counted
handles held only for lifetime management and never read by any embedded
operation, so they are omitted; the mutex only serializes the accessors. -/
structure FrameCryptor where
  rtc_runtime_ : RtcRuntime
  participant_id_ : String
  key_provider_ : Nat
  e2ee_transformer_ : Nat
  observer_ : Option NativeFrameCryptorObserver
deriving DecidableEq, Repr

/-- Embeds the sender constructor `FrameCryptor::FrameCryptor`
(frame_cryptor.cpp, lines 65-85): picks the media type from the sender
track's kind, allocates one fresh native transformer from the runtime's
signaling thread, the participant id, the media type, the algorithm and the
key provider, installs it via `SetEncoderToPacketizerFrameTransformer`, then
calls `SetEnabled(false)` on it. `initEnabled` / `initKeyIndex` stand for
the external transformer's initial mutable state. -/
def FrameCryptor.constructForSender (rtc_runtime : RtcRuntime)
    (participant_id : String)
    (algorithm : webrtc.FrameCryptorTransformer.Algorithm)
    (key_provider : Nat) (sender : RtpSender) (initEnabled : Bool)
    (initKeyIndex : Int) (w : World) : FrameCryptor × RtpSender × World :=
  let mediaType :=
    if sender.track.kind = "audio" then
      webrtc.FrameCryptorTransformer.MediaType.kAudioFrame
    else
      webrtc.FrameCryptorTransformer.MediaType.kVideoFrame
  let fresh : webrtc.FrameCryptorTransformer :=
    { signaling_thread := rtc_runtime.signaling_thread
      participant_id := participant_id
      mediaType := mediaType
      algorithm := algorithm
      key_provider := key_provider
      enabled := initEnabled
      keyIndex := initKeyIndex
      observerRegistered := false }
  let alloc := w.newFrameCryptorTransformer fresh
  let sender1 := sender.SetEncoderToPacketizerFrameTransformer alloc.1
  let w2 := alloc.2.SetEnabled alloc.1 false
  ({ rtc_runtime_ := rtc_runtime
     participant_id_ := participant_id
     key_provider_ := key_provider
     e2ee_transformer_ := alloc.1
     observer_ := none }, sender1, w2)

/-- Embeds the receiver constructor `FrameCryptor::FrameCryptor`
(frame_cryptor.cpp, lines 87-107): same as the sender constructor but on the
receiver track's kind and installing via
`SetDepacketizerToDecoderFrameTransformer`. -/
def FrameCryptor.constructForReceiver (rtc_runtime : RtcRuntime)
    (participant_id : String)
    (algorithm : webrtc.FrameCryptorTransformer.Algorithm)
    (key_provider : Nat) (receiver : RtpReceiver) (initEnabled : Bool)
    (initKeyIndex : Int) (w : World) : FrameCryptor × RtpReceiver × World :=
  let mediaType :=
    if receiver.track.kind = "audio" then
      webrtc.FrameCryptorTransformer.MediaType.kAudioFrame
    else
      webrtc.FrameCryptorTransformer.MediaType.kVideoFrame
  let fresh : webrtc.FrameCryptorTransformer :=
    { signaling_thread := rtc_runtime.signaling_thread
      participant_id := participant_id
      mediaType := mediaType
      algorithm := algorithm
      key_provider := key_provider
      enabled := initEnabled
      keyIndex := initKeyIndex
      observerRegistered := false }
  let alloc := w.newFrameCryptorTransformer fresh
  let receiver1 := receiver.SetDepacketizerToDecoderFrameTransformer alloc.1
  let w2 := alloc.2.SetEnabled alloc.1 false
  ({ rtc_runtime_ := rtc_runtime
     participant_id_ := participant_id
     key_provider_ := key_provider
     e2ee_transformer_ := alloc.1
     observer_ := none }, receiver1, w2)

/-- Embeds `FrameCryptor::set_enabled` (frame_cryptor.cpp, lines 143-146):
forwards to the transformer's `SetEnabled` under the mutex. -/
def FrameCryptor.set_enabled (fc : FrameCryptor) (enabled : Bool)
    (w : World) : World :=
  w.SetEnabled fc.e2ee_transformer_ enabled

/-- Embeds `FrameCryptor::enabled` (frame_cryptor.cpp, lines 148-151):
returns the transformer's `enabled()` under the mutex. -/
def FrameCryptor.enabled (fc : FrameCryptor) (w : World) : Bool :=
  (w.getT fc.e2ee_transformer_).enabled

/-- Embeds `FrameCryptor::set_key_index` (frame_cryptor.cpp, lines 153-156):
forwards to the transformer's `SetKeyIndex` under the mutex. -/
def FrameCryptor.set_key_index (fc : FrameCryptor) (index : Int) (w : World) :
    World :=
  w.SetKeyIndex fc.e2ee_transformer_ index

/-- Embeds `FrameCryptor::key_index` (frame_cryptor.cpp, lines 158-161):
returns the transformer's `key_index()` under the mutex. -/
def FrameCryptor.key_index (fc : FrameCryptor) (w : World) : Int :=
  (w.getT fc.e2ee_transformer_).keyIndex

/-- Embeds `FrameCryptor::register_observer` (frame_cryptor.cpp, lines
115-121): stores a new `NativeFrameCryptorObserver` wrapping the moved Rust
observer into `observer_` and registers it on the transformer. -/
def FrameCryptor.register_observer (fc : FrameCryptor) (observer : Nat)
    (w : World) : FrameCryptor × World :=
  ({ fc with observer_ := some { observer_ := observer } },
   w.RegisterFrameCryptorTransformerObserver fc.e2ee_transformer_)

/-- Embeds `FrameCryptor::unregister_observer` (frame_cryptor.cpp, lines
123-127): clears `observer_` and unregisters on the transformer. -/
def FrameCryptor.unregister_observer (fc : FrameCryptor) (w : World) :
    FrameCryptor × World :=
  ({ fc with observer_ := none },
   w.UnRegisterFrameCryptorTransformerObserver fc.e2ee_transformer_)

/-- Embeds the destructor `FrameCryptor::~FrameCryptor` (frame_cryptor.cpp,
lines 109-113): calls `unregister_observer` when `observer_` is non-null. -/
def FrameCryptor.destruct (fc : FrameCryptor) (w : World) : World :=
  if fc.observer_.isSome then (fc.unregister_observer w).2 else w

/-- The registration invariant of claim C9: `observer_` is non-null exactly
when an observer is registered on the wrapped transformer. -/
def observerInvariant (fc : FrameCryptor) (w : World) : Prop :=
  fc.observer_.isSome = (w.getT fc.e2ee_transformer_).observerRegistered

/-- Concrete transformer used by the witnesses. -/
def sampleTransformer : webrtc.FrameCryptorTransformer :=
  { signaling_thread := 0
    participant_id := "alice"
    mediaType := webrtc.FrameCryptorTransformer.MediaType.kAudioFrame
    algorithm := webrtc.FrameCryptorTransformer.Algorithm.kAesGcm
    key_provider := 0
    enabled := false
    keyIndex := 0
    observerRegistered := false }

/-- Concrete one-transformer heap used by the witnesses. -/
def sampleWorld : World := ⟨[sampleTransformer]⟩

/-- Concrete `FrameCryptor` (pointing at the transformer of `sampleWorld`)
used by the witnesses. -/
def sampleFrameCryptor : FrameCryptor :=
  { rtc_runtime_ := { signaling_thread := 0 }
    participant_id_ := "alice"
    key_provider_ := 0
    e2ee_transformer_ := 0
    observer_ := none }

/-! Helper lemmas about list-backed heaps and the fold in the salt copy. -/

theorem foldl_push_eq_append (src acc : List Nat) :
    src.foldl (fun dest b => dest ++ [b]) acc = acc ++ src := by
  induction src generalizing acc with
  | nil => simp
  | cons b bs ih => simp [ih]

theorem copyToBackInserter_eq (src : List Nat) :
    copyToBackInserter src = src := by
  simpa using foldl_push_eq_append src []

theorem set_append_singleton {α : Type} (l : List α) (t x : α) :
    (l ++ [t]).set l.length x = l ++ [x] := by
  induction l with
  | nil => rfl
  | cons a as ih => simp [ih]

theorem getD_append_singleton {α : Type} (l : List α) (t d : α) :
    (l ++ [t]).getD l.length d = t := by
  rw [List.getD_append_right l [t] d l.length (Nat.le_refl _)]
  simp

theorem getD_set_self {α : Type} (l : List α) (i : Nat) (x d : α)
    (h : i < l.length) : (l.set i x).getD i d = x := by
  induction l generalizing i with
  | nil => exact absurd h (Nat.not_lt_zero i)
  | cons a as ih =>
    cases i with
    | zero => rfl
    | succ n =>
      have hstep : ((a :: as).set (n + 1) x).getD (n + 1) d =
          (as.set n x).getD n d := rfl
      rw [hstep]
      exact ih n (Nat.lt_of_succ_lt_succ h)

theorem World.getT_mk_append (l : List webrtc.FrameCryptorTransformer)
    (t : webrtc.FrameCryptorTransformer) :
    World.getT ⟨l ++ [t]⟩ l.length = t :=
  getD_append_singleton l t default

theorem World.getT_updateT_self (w : World) (i : Nat)
    (f : webrtc.FrameCryptorTransformer → webrtc.FrameCryptorTransformer)
    (h : i < w.transformers.length) :
    (w.updateT i f).getT i = f (w.getT i) :=
  getD_set_self w.transformers i (f (w.getT i)) default h

/-- Evaluation of the sender constructor: the allocated transformer carries
the constructor arguments, the sender points at it, and its enabled flag
ends up `false`. -/
theorem constructForSender_eq (rt : RtcRuntime) (pid : String)
    (alg : webrtc.FrameCryptorTransformer.Algorithm) (kp : Nat)
    (s : RtpSender) (e0 : Bool) (k0 : Int) (w : World) :
    FrameCryptor.constructForSender rt pid alg kp s e0 k0 w =
      ({ rtc_runtime_ := rt
         participant_id_ := pid
         key_provider_ := kp
         e2ee_transformer_ := w.transformers.length
         observer_ := none },
       { s with frame_transformer := some w.transformers.length },
       ⟨w.transformers ++
         [{ signaling_thread := rt.signaling_thread
            participant_id := pid
            mediaType :=
              if s.track.kind = "audio" then
                webrtc.FrameCryptorTransformer.MediaType.kAudioFrame
              else
                webrtc.FrameCryptorTransformer.MediaType.kVideoFrame
            algorithm := alg
            key_provider := kp
            enabled := false
            keyIndex := k0
            observerRegistered := false }]⟩) := by
  unfold FrameCryptor.constructForSender
  simp only [World.newFrameCryptorTransformer, World.SetEnabled, World.updateT,
    RtpSender.SetEncoderToPacketizerFrameTransformer, World.getT_mk_append,
    set_append_singleton]

/-- Evaluation of the receiver constructor, mirror of
`constructForSender_eq`. -/
theorem constructForReceiver_eq (rt : RtcRuntime) (pid : String)
    (alg : webrtc.FrameCryptorTransformer.Algorithm) (kp : Nat)
    (r : RtpReceiver) (e0 : Bool) (k0 : Int) (w : World) :
    FrameCryptor.constructForReceiver rt pid alg kp r e0 k0 w =
      ({ rtc_runtime_ := rt
         participant_id_ := pid
         key_provider_ := kp
         e2ee_transformer_ := w.transformers.length
         observer_ := none },
       { r with frame_transformer := some w.transformers.length },
       ⟨w.transformers ++
         [{ signaling_thread := rt.signaling_thread
            participant_id := pid
            mediaType :=
              if r.track.kind = "audio" then
                webrtc.FrameCryptorTransformer.MediaType.kAudioFrame
              else
                webrtc.FrameCryptorTransformer.MediaType.kVideoFrame
            algorithm := alg
            key_provider := kp
            enabled := false
            keyIndex := k0
            observerRegistered := false }]⟩) := by
  unfold FrameCryptor.constructForReceiver
  simp only [World.newFrameCryptorTransformer, World.SetEnabled, World.updateT,
    RtpReceiver.SetDepacketizerToDecoderFrameTransformer,
    World.getT_mk_append, set_append_singleton]

/-- Claim C1, counterexample: the translation is not name-preserving — at
input `Algorithm.Sm4Gcm` the code returns `kAesGcm`, not the native
enumerator `kSm4Gcm` of the same name. -/
theorem algorithm_translation_not_name_preserving :
    AlgorithmToFrameCryptorAlgorithm Algorithm.Sm4Gcm ≠
      webrtc.FrameCryptorTransformer.Algorithm.kSm4Gcm := by
  decide

/-- Claim C1, amended: `AlgorithmToFrameCryptorAlgorithm` is pure option
translation with no algorithm logic, mapping `AesGcm` to `kAesGcm` and
`AesCbc` to `kAesCbc`; but `Sm4Gcm` and `Sm4Cbc` are mapped to `kAesGcm`,
not to the native enumerators of the same name. -/
theorem algorithm_translation_on_enumerators :
    AlgorithmToFrameCryptorAlgorithm Algorithm.AesGcm =
      webrtc.FrameCryptorTransformer.Algorithm.kAesGcm ∧
    AlgorithmToFrameCryptorAlgorithm Algorithm.AesCbc =
      webrtc.FrameCryptorTransformer.Algorithm.kAesCbc ∧
    AlgorithmToFrameCryptorAlgorithm Algorithm.Sm4Gcm =
      webrtc.FrameCryptorTransformer.Algorithm.kAesGcm ∧
    AlgorithmToFrameCryptorAlgorithm Algorithm.Sm4Cbc =
      webrtc.FrameCryptorTransformer.Algorithm.kAesGcm := by
  decide

/-- Claim C2: every input other than `AesCbc` — including `Sm4Gcm`,
`Sm4Cbc`, and values outside the four named enumerators — translates to
`kAesGcm`, so the translation is not injective and the SM4 choices are
silently replaced by AES-GCM. -/
theorem algorithm_translation_collapses_to_aes_gcm :
    (∀ a : Algorithm, a ≠ Algorithm.AesCbc →
      AlgorithmToFrameCryptorAlgorithm a =
        webrtc.FrameCryptorTransformer.Algorithm.kAesGcm) ∧
    AlgorithmToFrameCryptorAlgorithm Algorithm.Sm4Gcm =
      AlgorithmToFrameCryptorAlgorithm Algorithm.AesGcm ∧
    AlgorithmToFrameCryptorAlgorithm Algorithm.Sm4Cbc =
      AlgorithmToFrameCryptorAlgorithm Algorithm.AesGcm ∧
    Algorithm.Sm4Gcm ≠ Algorithm.AesGcm := by
  refine ⟨?_, by decide, by decide, by decide⟩
  intro a h
  unfold AlgorithmToFrameCryptorAlgorithm
  split_ifs <;> simp_all

/-- Witness for claim C2 at the out-of-enumerator value 9. -/
theorem algorithm_translation_collapses_to_aes_gcm_witness :
    Algorithm.mk 9 ≠ Algorithm.AesCbc ∧
    AlgorithmToFrameCryptorAlgorithm (Algorithm.mk 9) =
      webrtc.FrameCryptorTransformer.Algorithm.kAesGcm :=
  ⟨by decide,
   algorithm_translation_collapses_to_aes_gcm.1 (Algorithm.mk 9) (by decide)⟩

/-- Claim C3: both constructors end with `SetEnabled(false)` on the wired
transformer, so `enabled()` on a freshly constructed `FrameCryptor` returns
`false`, whatever the transformer's initial enabled flag was. -/
theorem fresh_frame_cryptor_disabled (rt : RtcRuntime) (pid : String)
    (alg : webrtc.FrameCryptorTransformer.Algorithm) (kp : Nat)
    (s : RtpSender) (r : RtpReceiver) (e0 : Bool) (k0 : Int) (w : World) :
    (FrameCryptor.constructForSender rt pid alg kp s e0 k0 w).1.enabled
      (FrameCryptor.constructForSender rt pid alg kp s e0 k0 w).2.2 = false ∧
    (FrameCryptor.constructForReceiver rt pid alg kp r e0 k0 w).1.enabled
      (FrameCryptor.constructForReceiver rt pid alg kp r e0 k0 w).2.2
        = false := by
  rw [constructForSender_eq, constructForReceiver_eq]
  unfold FrameCryptor.enabled
  rw [World.getT_mk_append, World.getT_mk_append]
  exact ⟨rfl, rfl⟩

/-- Claim C4: each constructor allocates exactly one new native transformer,
built from the runtime's signaling thread, the participant id, the media
type, the algorithm and the key provider, and installs that same transformer
(the same heap reference the `FrameCryptor` keeps) into the sender's or
receiver's pipeline. -/
theorem constructor_allocates_and_installs_one_transformer (rt : RtcRuntime)
    (pid : String) (alg : webrtc.FrameCryptorTransformer.Algorithm) (kp : Nat)
    (s : RtpSender) (r : RtpReceiver) (e0 : Bool) (k0 : Int) (w : World) :
    ((FrameCryptor.constructForSender rt pid alg kp s e0 k0
          w).2.2.transformers.length = w.transformers.length + 1 ∧
      (FrameCryptor.constructForSender rt pid alg kp s e0 k0
          w).1.e2ee_transformer_ = w.transformers.length ∧
      (FrameCryptor.constructForSender rt pid alg kp s e0 k0
          w).2.1.frame_transformer =
        some (FrameCryptor.constructForSender rt pid alg kp s e0 k0
          w).1.e2ee_transformer_ ∧
      (FrameCryptor.constructForSender rt pid alg kp s e0 k0 w).2.2.getT
          (FrameCryptor.constructForSender rt pid alg kp s e0 k0
            w).1.e2ee_transformer_ =
        { signaling_thread := rt.signaling_thread
          participant_id := pid
          mediaType :=
            if s.track.kind = "audio" then
              webrtc.FrameCryptorTransformer.MediaType.kAudioFrame
            else
              webrtc.FrameCryptorTransformer.MediaType.kVideoFrame
          algorithm := alg
          key_provider := kp
          enabled := false
          keyIndex := k0
          observerRegistered := false }) ∧
    ((FrameCryptor.constructForReceiver rt pid alg kp r e0 k0
          w).2.2.transformers.length = w.transformers.length + 1 ∧
      (FrameCryptor.constructForReceiver rt pid alg kp r e0 k0
          w).1.e2ee_transformer_ = w.transformers.length ∧
      (FrameCryptor.constructForReceiver rt pid alg kp r e0 k0
          w).2.1.frame_transformer =
        some (FrameCryptor.constructForReceiver rt pid alg kp r e0 k0
          w).1.e2ee_transformer_ ∧
      (FrameCryptor.constructForReceiver rt pid alg kp r e0 k0 w).2.2.getT
          (FrameCryptor.constructForReceiver rt pid alg kp r e0 k0
            w).1.e2ee_transformer_ =
        { signaling_thread := rt.signaling_thread
          participant_id := pid
          mediaType :=
            if r.track.kind = "audio" then
              webrtc.FrameCryptorTransformer.MediaType.kAudioFrame
            else
              webrtc.FrameCryptorTransformer.MediaType.kVideoFrame
          algorithm := alg
          key_provider := kp
          enabled := false
          keyIndex := k0
          observerRegistered := false }) := by
  rw [constructForSender_eq, constructForReceiver_eq]
  refine ⟨⟨by simp, rfl, rfl, World.getT_mk_append _ _⟩,
    ⟨by simp, rfl, rfl, World.getT_mk_append _ _⟩⟩

/-- Claim C5: `OnFrameCryptionStateChanged` invokes the wrapped Rust
observer's `on_frame_cryption_state_change` exactly once, with the identical
participant id and with the state cast value-for-value to the boundary
enum. -/
theorem state_change_forwarded_verbatim (o : NativeFrameCryptorObserver)
    (pid : String) (state : webrtc.FrameCryptionState) :
    o.OnFrameCryptionStateChanged pid state =
      [{ target := o.observer_
         participant_id := pid
         state := { val := state.val } }] ∧
    (o.OnFrameCryptionStateChanged pid state).length = 1 :=
  ⟨rfl, rfl⟩

/-- Claim C6: the `KeyProvider` constructor is field-for-field option
translation — the wrapped `DefaultKeyProviderImpl` is built from a native
options record with the same shared-key flag, a byte-for-byte in-order copy
of the ratchet salt, the same ratchet window size and the same failure
tolerance. -/
theorem key_provider_construction_field_for_field
    (options : KeyProviderOptions) :
    (KeyProvider.construct options).impl_ =
      { options :=
          { shared_key := options.shared_key
            ratchet_salt := options.ratchet_salt
            ratchet_window_size := options.ratchet_window_size
            failure_tolerance := options.failure_tolerance } } := by
  simp [KeyProvider.construct, copyToBackInserter_eq]

/-- Claim C7: `set_enabled` / `enabled` are pure forwarding — after
`set_enabled b` the accessor `enabled()` returns `b`, and `enabled()` always
returns exactly the wrapped transformer's current enabled flag. -/
theorem enabled_accessors_forward (fc : FrameCryptor) (w : World) (b : Bool)
    (h : fc.e2ee_transformer_ < w.transformers.length) :
    fc.enabled (fc.set_enabled b w) = b ∧
    fc.enabled w = (w.getT fc.e2ee_transformer_).enabled := by
  refine ⟨?_, rfl⟩
  unfold FrameCryptor.enabled FrameCryptor.set_enabled World.SetEnabled
  rw [World.getT_updateT_self w fc.e2ee_transformer_ _ h]

/-- Witness for claim C7 on a concrete one-transformer heap. -/
theorem enabled_accessors_forward_witness :
    sampleFrameCryptor.e2ee_transformer_ <
      sampleWorld.transformers.length ∧
    sampleFrameCryptor.enabled
      (sampleFrameCryptor.set_enabled true sampleWorld) = true :=
  ⟨by decide,
   (enabled_accessors_forward sampleFrameCryptor sampleWorld true
     (by decide)).1⟩

/-- Claim C8: `set_key_index` / `key_index` are pure forwarding — after
`set_key_index i` the accessor `key_index()` returns `i`, and `key_index()`
always returns exactly the wrapped transformer's current key index. -/
theorem key_index_accessors_forward (fc : FrameCryptor) (w : World) (i : Int)
    (h : fc.e2ee_transformer_ < w.transformers.length) :
    fc.key_index (fc.set_key_index i w) = i ∧
    fc.key_index w = (w.getT fc.e2ee_transformer_).keyIndex := by
  refine ⟨?_, rfl⟩
  unfold FrameCryptor.key_index FrameCryptor.set_key_index World.SetKeyIndex
  rw [World.getT_updateT_self w fc.e2ee_transformer_ _ h]

/-- Witness for claim C8 on a concrete one-transformer heap. -/
theorem key_index_accessors_forward_witness :
    sampleFrameCryptor.e2ee_transformer_ <
      sampleWorld.transformers.length ∧
    sampleFrameCryptor.key_index
      (sampleFrameCryptor.set_key_index 5 sampleWorld) = 5 :=
  ⟨by decide,
   (key_index_accessors_forward sampleFrameCryptor sampleWorld 5
     (by decide)).1⟩

/-- Claim C9: the invariant that `observer_` is non-null exactly when an
observer is registered on the wrapped transformer is established by both
constructors, preserved with the expected effect by `register_observer` and
`unregister_observer`, and the destructor leaves no observer registered
whenever the invariant held at destruction time. -/
theorem observer_registration_invariant :
    (∀ (rt : RtcRuntime) (pid : String)
        (alg : webrtc.FrameCryptorTransformer.Algorithm) (kp : Nat)
        (s : RtpSender) (e0 : Bool) (k0 : Int) (w : World),
      observerInvariant
        (FrameCryptor.constructForSender rt pid alg kp s e0 k0 w).1
        (FrameCryptor.constructForSender rt pid alg kp s e0 k0 w).2.2) ∧
    (∀ (rt : RtcRuntime) (pid : String)
        (alg : webrtc.FrameCryptorTransformer.Algorithm) (kp : Nat)
        (r : RtpReceiver) (e0 : Bool) (k0 : Int) (w : World),
      observerInvariant
        (FrameCryptor.constructForReceiver rt pid alg kp r e0 k0 w).1
        (FrameCryptor.constructForReceiver rt pid alg kp r e0 k0 w).2.2) ∧
    (∀ (fc : FrameCryptor) (obs : Nat) (w : World),
      fc.e2ee_transformer_ < w.transformers.length →
      observerInvariant (fc.register_observer obs w).1
          (fc.register_observer obs w).2 ∧
        (fc.register_observer obs w).1.observer_ =
          some { observer_ := obs }) ∧
    (∀ (fc : FrameCryptor) (w : World),
      fc.e2ee_transformer_ < w.transformers.length →
      observerInvariant (fc.unregister_observer w).1
          (fc.unregister_observer w).2 ∧
        (fc.unregister_observer w).1.observer_ = none) ∧
    (∀ (fc : FrameCryptor) (w : World),
      fc.e2ee_transformer_ < w.transformers.length →
      observerInvariant fc w →
      ((fc.destruct w).getT fc.e2ee_transformer_).observerRegistered
        = false) := by
  refine ⟨?_, ?_, ?_, ?_, ?_⟩
  · intro rt pid alg kp s e0 k0 w
    rw [constructForSender_eq]
    unfold observerInvariant
    rw [World.getT_mk_append]
    rfl
  · intro rt pid alg kp r e0 k0 w
    rw [constructForReceiver_eq]
    unfold observerInvariant
    rw [World.getT_mk_append]
    rfl
  · intro fc obs w h
    refine ⟨?_, rfl⟩
    unfold observerInvariant FrameCryptor.register_observer
      World.RegisterFrameCryptorTransformerObserver
    rw [World.getT_updateT_self w fc.e2ee_transformer_ _ h]
    rfl
  · intro fc w h
    refine ⟨?_, rfl⟩
    unfold observerInvariant FrameCryptor.unregister_observer
      World.UnRegisterFrameCryptorTransformerObserver
    rw [World.getT_updateT_self w fc.e2ee_transformer_ _ h]
    rfl
  · intro fc w h hinv
    unfold FrameCryptor.destruct
    cases hobs : fc.observer_ with
    | none =>
      simp only [hobs, Option.isSome_none, Bool.false_eq_true, if_neg]
      unfold observerInvariant at hinv
      rw [hobs] at hinv
      simpa using hinv.symm
    | some o =>
      simp only [hobs, Option.isSome_some, if_pos]
      unfold FrameCryptor.unregister_observer
        World.UnRegisterFrameCryptorTransformerObserver
      rw [World.getT_updateT_self w fc.e2ee_transformer_ _ h]

/-- Witness for claim C9: registering on a concrete heap and destructing a
concrete cryptor both respect the invariant. -/
theorem observer_registration_invariant_witness :
    sampleFrameCryptor.e2ee_transformer_ <
      sampleWorld.transformers.length ∧
    observerInvariant (sampleFrameCryptor.register_observer 7 sampleWorld).1
      (sampleFrameCryptor.register_observer 7 sampleWorld).2 :=
  ⟨by decide,
   (observer_registration_invariant.2.2.1 sampleFrameCryptor 7 sampleWorld
     (by decide)).1⟩

/-- Claim C10: the media type wired into the transformer is decided solely
by string equality of the track kind with "audio" — `kAudioFrame` exactly
for kind "audio", `kVideoFrame` for every other kind string, in both
constructors. -/
theorem media_type_decided_by_audio_kind (rt : RtcRuntime) (pid : String)
    (alg : webrtc.FrameCryptorTransformer.Algorithm) (kp : Nat)
    (s : RtpSender) (r : RtpReceiver) (e0 : Bool) (k0 : Int) (w : World) :
    ((FrameCryptor.constructForSender rt pid alg kp s e0 k0 w).2.2.getT
        (FrameCryptor.constructForSender rt pid alg kp s e0 k0
          w).1.e2ee_transformer_).mediaType =
      (if s.track.kind = "audio" then
        webrtc.FrameCryptorTransformer.MediaType.kAudioFrame
      else
        webrtc.FrameCryptorTransformer.MediaType.kVideoFrame) ∧
    ((FrameCryptor.constructForReceiver rt pid alg kp r e0 k0 w).2.2.getT
        (FrameCryptor.constructForReceiver rt pid alg kp r e0 k0
          w).1.e2ee_transformer_).mediaType =
      (if r.track.kind = "audio" then
        webrtc.FrameCryptorTransformer.MediaType.kAudioFrame
      else
        webrtc.FrameCryptorTransformer.MediaType.kVideoFrame) := by
  rw [constructForSender_eq, constructForReceiver_eq]
  rw [World.getT_mk_append, World.getT_mk_append]
  exact ⟨rfl, rfl⟩

end livekit
